import Mathlib

/-!
Verification development for the Advanced Builder Sublime Text plugin.

Shallow embedding of the process-output pipeline (`advanced_builder.py`:
`AsyncBuildProcess`, `OutputWindowController`), the phase base class
(`common/build_phase.py`: `BuildPhase.init`), the StyleCop post-run hook
(`build_phases/stylecop_phase.py`) and the placeholder expansion
(`common/settings.py`: `AdvancedBuilderSettings.expand_placeholders`).

Modelling conventions:
* Text is modelled as `List Char` (`Str`); byte decoding (`data.decode`) is
  abstracted away, chunks arrive already decoded.  The decode-failure branch of
  `append_data` (which substitutes a diagnostic line and detaches the chunk
  from its process) is not modelled; the claims below do not involve it.
* A compiled regular expression is abstracted as a boolean match oracle
  `Str → Bool` (the code only branches on whether `re.match` returned a match;
  the captured group dictionary is only used to build the rendered message,
  which we abstract as the matched line itself).  `make_re` accepts a single
  pattern or a list of patterns; both are modelled as a `List (Str → Bool)`,
  with `match_line` succeeding when any member matches (the code returns the
  first match, which is observationally the same at the boolean level).
* Python object identity of process handles (`proc != self.proc`) is modelled
  by a numeric identity token `ProcState.id` (a fresh one per spawn).
* UI calls (`write_to_view`, panels, `sublime.status_message`, console
  `printcons`) are modelled only through the ordered log of rendered entries;
  the exact formatted text built by `_build_message` is abstracted as the raw
  line, tagged with the severity of the `write_to_view` call site.
-/

abbrev Str := List Char

/-- A rendered entry of the output log, tagged by the classification branch of
`OutputWindowController.process_line` (or a raw pass-through write) that
produced it. -/
inductive LogEntry where
  | plain (line : Str)
  | error (line : Str)
  | warning (line : Str)
  | message (line : Str)

/-- Python runtime errors that the embedded code can raise. -/
inductive PyErr where
  | attributeError (attr : String)
deriving DecidableEq

/-! ### Line buffer (`OutputWindowController.append_data`, lines 426-446)

`str_data.replace('\r\n', '\n').replace('\r', '\n')`, then prepend the held
fragment, split on `'\n'`, hold back the trailing fragment. -/

/-- First normalization pass: `str_data.replace('\r\n', '\n')` (left-to-right,
non-overlapping). -/
def replaceCrlf : Str → Str
  | '\r' :: '\n' :: rest => '\n' :: replaceCrlf rest
  | c :: rest => c :: replaceCrlf rest
  | [] => []

/-- Second normalization pass: `.replace('\r', '\n')` (single characters, so a
plain map). -/
def replaceCr (l : Str) : Str :=
  l.map fun c => if c = '\r' then '\n' else c

/-- Newline normalization used by `append_data` (line 428). -/
def normalizeNewlines (l : Str) : Str :=
  replaceCr (replaceCrlf l)

/-- Python `str.split("\n")`: always returns at least one element; separators
delimit (possibly empty) fields. -/
def splitNewline : Str → List Str
  | [] => [[]]
  | c :: rest =>
    if c = '\n' then [] :: splitNewline rest
    else
      match splitNewline rest with
      | h :: t => (c :: h) :: t
      | [] => [[c]]

/-- One `append_data` pass of the line buffer for an attributed chunk:
normalize the chunk, prepend the held fragment, split, and hold back the last
(possibly empty) field as the new fragment (lines 428, 436-446; the
`proc.buffer = ""` at line 438 followed by the conditional re-assignment at
line 444 leaves exactly the last field, or `""` when the data ended on a
terminator). Returns (emitted complete lines, new held fragment). -/
def feed (buf chunk : Str) : List Str × Str :=
  let sd := buf ++ normalizeNewlines chunk
  let parts := splitNewline sd
  (parts.dropLast, parts.getLastD [])

/-- Feeding a whole sequence of chunks through the line buffer, starting from
a held fragment, collecting all emitted lines. -/
def feedAll : List Str → Str → List Str × Str
  | [], buf => ([], buf)
  | c :: cs, buf =>
    let r1 := feed buf c
    let r2 := feedAll cs r1.2
    (r1.1 ++ r2.1, r2.2)

/-- Reinsert the terminators: every emitted line followed by `'\n'`, then the
final fragment. -/
def emitJoin (lines : List Str) (frag : Str) : Str :=
  lines.foldr (fun l acc => l ++ '\n' :: acc) frag

/-- Join the fields of a split back with `'\n'` separators. -/
def joinNewline : List Str → Str
  | [] => []
  | [l] => l
  | l :: ls => l ++ '\n' :: joinNewline ls

theorem splitNewline_ne_nil (s : Str) : splitNewline s ≠ [] := by
  induction s with
  | nil => simp [splitNewline]
  | cons c rest ih =>
    simp only [splitNewline]
    split
    · simp
    · split <;> simp

theorem joinNewline_splitNewline (s : Str) : joinNewline (splitNewline s) = s := by
  induction s with
  | nil => simp [splitNewline, joinNewline]
  | cons c rest ih =>
    by_cases hc : c = '\n'
    · subst hc
      rcases hp : splitNewline rest with _ | ⟨h, t⟩
      · exact absurd hp (splitNewline_ne_nil rest)
      · rw [hp] at ih
        simp only [splitNewline, if_pos rfl, hp]
        rcases t with _ | ⟨t0, ts⟩
        · simpa [joinNewline] using ih
        · simpa [joinNewline] using ih
    · rcases hp : splitNewline rest with _ | ⟨h, t⟩
      · exact absurd hp (splitNewline_ne_nil rest)
      · rw [hp] at ih
        simp only [splitNewline, if_neg hc, hp]
        rcases t with _ | ⟨t0, ts⟩
        · simpa [joinNewline] using ih
        · simp only [joinNewline] at ih ⊢
          simp [← ih]

theorem emitJoin_dropLast_getLastD (parts : List Str) (hne : parts ≠ []) :
    emitJoin parts.dropLast (parts.getLastD []) = joinNewline parts := by
  induction parts with
  | nil => exact absurd rfl hne
  | cons l ls ih =>
    rcases ls with _ | ⟨l1, ls'⟩
    · simp [emitJoin, joinNewline]
    · have ihne : l1 :: ls' ≠ [] := by simp
      have hrec := ih ihne
      rw [List.dropLast_cons_of_ne_nil ihne]
      simp only [List.getLastD_cons] at hrec ⊢
      simp only [emitJoin, List.foldr_cons] at hrec ⊢
      rw [hrec]
      simp [joinNewline]

theorem emitJoin_feed (buf chunk : Str) :
    emitJoin (feed buf chunk).1 (feed buf chunk).2 = buf ++ normalizeNewlines chunk := by
  unfold feed
  simp only
  rw [emitJoin_dropLast_getLastD _ (splitNewline_ne_nil _), joinNewline_splitNewline]

theorem emitJoin_append (xs ys : List Str) (f : Str) :
    emitJoin (xs ++ ys) f = emitJoin xs (emitJoin ys f) := by
  simp [emitJoin, List.foldr_append]

theorem emitJoin_frag_append (xs : List Str) (f g : Str) :
    emitJoin xs (f ++ g) = emitJoin xs f ++ g := by
  induction xs with
  | nil => simp [emitJoin]
  | cons l ls ih => simp [emitJoin, List.foldr_cons] at ih ⊢; simp [ih]

/-- Conservation across a whole chunk sequence: everything emitted plus the
final fragment is the concatenation of the per-chunk-normalized inputs. -/
theorem emitJoin_feedAll (chunks : List Str) (buf : Str) :
    emitJoin (feedAll chunks buf).1 (feedAll chunks buf).2 =
      buf ++ (chunks.map normalizeNewlines).flatten := by
  induction chunks generalizing buf with
  | nil => simp [feedAll, emitJoin]
  | cons c cs ih =>
    simp only [feedAll, List.map_cons, List.flatten_cons]
    rw [emitJoin_append, ih, emitJoin_frag_append, emitJoin_feed]
    simp

/-! ### Process handle state seen by the Output Sink

The per-process attributes of `AsyncBuildProcess` that
`OutputWindowController` reads and mutates (`__init__` lines 88-111, and the
mutable `buffer` / `skip_lines`). Regexes are abstracted as match oracles; the
`completion_callback` is abstracted by the boolean it returns (`none` when no
callback is configured); `exit_code` is the value `proc.poll()` reports at
completion time (`none` while still running). -/
structure ProcState where
  id : Nat
  skip_lines : Nat
  error_re : Option (List (Str → Bool))
  warning_re : Option (List (Str → Bool))
  message_re : Option (List (Str → Bool))
  hide_re : Option (List (Str → Bool))
  line_re : Option (List (Str → Bool))
  warnings_as_errors : Bool
  allow_hide_errors : Bool
  completion_callback : Option Bool
  exit_code : Option Int
  buffer : Str

/-- `OutputWindowController.match_line` (lines 406-413): try the candidate
patterns in order, succeed on the first match; at the boolean level this is an
`any`. A single configured regex is modelled as a one-element list. -/
def match_line (line : Str) (exprs : List (Str → Bool)) : Bool :=
  exprs.any fun f => f line

/-- Combination of the source's `xxx_regex is not None` guard with the
subsequent `match_line` call: an unconfigured category never matches. -/
def reMatch (re : Option (List (Str → Bool))) (line : Str) : Bool :=
  match re with
  | some exprs => match_line line exprs
  | none => false

/-- Mutable state of `OutputWindowController` relevant to the claims
(`init` lines 261-271). `temp_str` is `none` as long as the attribute has
never been assigned: `init` does not assign it, so a read before the first
assignment raises `AttributeError` in Python; the pipeline functions below
surface that as a `PyErr`. -/
structure SinkState where
  proc : Option ProcState
  has_errors : Bool
  running : Bool
  quiet : Bool
  temp_str : Option Str
  log : List LogEntry

/-- `OutputWindowController.init` (lines 226-271): fresh controller state.
`temp_str` is never assigned there. -/
def SinkState.start (quiet : Bool) : SinkState :=
  { proc := none, has_errors := false, running := false, quiet := quiet,
    temp_str := none, log := [] }

namespace OutputWindowController

/-- `OutputWindowController.process_line` (lines 479-537). Classifies one
logical line against the current process's pattern set and appends the
rendered entry, mirroring the source's branch structure exactly: the hide
check first, then error, warning (escalated by `warnings_as_errors`), message,
and the plain fallthrough gated by `quiet`. Note that `self.has_errors = True`
at line 495 (and line 512 for escalated warnings) precedes the
`allow_hide_errors` gate, which only guards the rendering. -/
def process_line (s : SinkState) (p : ProcState) (line : Str) : SinkState :=
  let hide := reMatch p.hide_re line
  if reMatch p.error_re line then
    let s1 := { s with has_errors := true }
    if !p.allow_hide_errors || !hide then
      { s1 with log := s1.log ++ [LogEntry.error line] }
    else s1
  else if reMatch p.warning_re line then
    if p.warnings_as_errors then
      let s1 := { s with has_errors := true }
      if !p.allow_hide_errors || !hide then
        { s1 with log := s1.log ++ [LogEntry.error line] }
      else s1
    else if !hide then { s with log := s.log ++ [LogEntry.warning line] }
    else s
  else if reMatch p.message_re line then
    if !hide then { s with log := s.log ++ [LogEntry.message line] }
    else s
  else if !s.quiet then { s with log := s.log ++ [LogEntry.plain line] }
  else s

/-- The per-line loop of `append_data` (lines 448-475) for an attributed
process: consume the skip budget first (line 455, before the empty-line check
at line 460), skip empty lines, accumulate continuation lines matched by
`line_re` into `temp_str` (line 464-472, with the `"$n$"` join marker and the
continuation message abstracted as the raw line), otherwise classify the
previous `temp_str` and store the current line in `temp_str` (lines 474-475).
A read of `temp_str` before its first assignment raises `AttributeError`
(`init` never assigns it); Python aborts the loop there, keeping all
mutations made so far. -/
def appendLoop : List Str → SinkState → ProcState → SinkState × ProcState × Option PyErr
  | [], s, p => (s, p, none)
  | line :: rest, s, p =>
    if 0 < p.skip_lines then
      appendLoop rest s { p with skip_lines := p.skip_lines - 1 }
    else if line = [] then
      appendLoop rest s p
    else if reMatch p.line_re line then
      match s.temp_str with
      | none => (s, p, some (PyErr.attributeError "temp_str"))
      | some t =>
        appendLoop rest { s with temp_str := some (t ++ '$' :: 'n' :: '$' :: line) } p
    else
      match s.temp_str with
      | none => (s, p, some (PyErr.attributeError "temp_str"))
      | some t =>
        appendLoop rest { process_line s p t with temp_str := some line } p

/-- `OutputWindowController.append_data` (lines 415-477). A chunk attributed
to a handle that is not the current process is dropped before anything else
(lines 416-418); an unattributed chunk (`proc is None`) bypasses the buffer
and the classifier and renders each complete line raw, dropping an
unterminated trailing fragment (lines 440-451); an attributed chunk goes
through the line buffer (`feed`) and then the per-line loop. Returns the new
state together with the Python exception, if one escaped the loop. -/
def append_data (s : SinkState) (procId : Option Nat) (data : Str) :
    SinkState × Option PyErr :=
  match procId with
  | none =>
    let r := feed [] data
    ({ s with log := s.log ++ r.1.map LogEntry.plain }, none)
  | some pid =>
    match s.proc with
    | none => (s, none)
    | some p =>
      if p.id ≠ pid then (s, none)
      else
        let r := feed p.buffer data
        let p1 := { p with buffer := r.2 }
        let res := appendLoop r.1 s p1
        ({ res.1 with proc := some res.2.1 }, res.2.2)

/-- `OutputWindowController.write` (lines 342-343): append an unattributed
message with a terminator. -/
def write (s : SinkState) (msg : Str) : SinkState :=
  (append_data s none (msg ++ ['\n'])).1

/-- Placeholder contents for the messages written on a spawn failure
(lines 322-331); their text does not matter for the claims. -/
def spawnErrMsgs : List Str :=
  [('e' :: 'x' :: 'c' :: []), ('c' :: 'm' :: 'd' :: []), ('d' :: 'i' :: 'r' :: []),
   ('p' :: 'a' :: 't' :: 'h' :: [])]

/-- `OutputWindowController.run` (lines 273-331). The very first statement is
`self.has_errors = False` (line 274). The `kill` branch (282-287) terminates a
still-running previous process, clears the current-process pointer and appends
`"[Cancelled]"` through `append_data` (note the source passes it with no
trailing newline, so as an unattributed chunk it is held back and dropped).
Then the spawn: on success the new handle becomes current and `_running` is
set; on an `OSError` the error context is written and the controller stays
not-running. Working-directory and environment handling are process-wide
effects outside this state (see `spawnPathEffect`). -/
def run (s : SinkState) (kill spawnOk : Bool) (newProc : ProcState) : SinkState :=
  let s1 : SinkState := { s with has_errors := false }
  let s2 : SinkState :=
    if kill then
      match s1.proc with
      | some p =>
        if p.exit_code = none then
          (append_data { s1 with proc := none } none
            ('[' :: 'C' :: 'a' :: 'n' :: 'c' :: 'e' :: 'l' :: 'l' :: 'e' :: 'd' :: ']' :: [])).1
        else s1
      | none => s1
    else s1
  if spawnOk then { s2 with proc := some newProc, running := true }
  else
    let s3 := spawnErrMsgs.foldl (fun st m => write st m) s2
    if !s3.quiet then write s3 ('[' :: 'F' :: 'i' :: 'n' :: []) else s3

/-- `OutputWindowController.finish` (lines 552-564): ignore completions of
non-current handles; otherwise flag a non-zero exit code, run the completion
callback and flag its failure, and clear `_running`. The callback itself is
abstracted by its boolean result. Note that nothing here flushes
`proc.buffer` or `temp_str` (`finish_data`, which would flush `temp_str`, is
never called anywhere in the source). -/
def finish (s : SinkState) (pid : Nat) : SinkState :=
  match s.proc with
  | none => s
  | some p =>
    if p.id ≠ pid then s
    else
      let s1 := if p.exit_code ≠ none ∧ p.exit_code ≠ some 0 then
          { s with has_errors := true } else s
      let s2 := match p.completion_callback with
        | some r => if r then { s1 with has_errors := true } else s1
        | none => s1
      { s2 with running := false }

/-- Entries that `output_view.find_all_results()` picks up in `done`: the
rendered error/warning lines carry the `[SEVERITY]:` prefix matched by the
configured `result_file_regex`. -/
def isResultEntry : LogEntry → Bool
  | LogEntry.error _ => true
  | LogEntry.warning _ => true
  | _ => false

/-- `OutputWindowController.done` (lines 566-589): derive the final flag from
the rendered results and the accumulated flag, and write the summary line
(texts abbreviated; only their presence matters). -/
def done (s : SinkState) : SinkState :=
  if (s.log.countP fun e => isResultEntry e) ≠ 0 then
    write { s with has_errors := true } ('n' :: 'e' :: 'r' :: 'r' :: [])
  else if s.has_errors then
    write { s with has_errors := true } ('e' :: 'r' :: 'r' :: 's' :: [])
  else
    write s ('o' :: 'k' :: [])

/-- `OutputWindowController.kill` (lines 591-606): kill and detach the current
process and write the interruption notice. `has_errors` and `_running` are
left untouched. -/
def kill (s : SinkState) : SinkState :=
  write { s with proc := none } ('i' :: 'n' :: 't' :: [])

end OutputWindowController

/-- The operations a build performs on the Output Sink after `init`: starting
a phase's task, delivering a (possibly stale) chunk, a completion
notification, the final summary, and an explicit kill. -/
inductive SinkOp where
  | opRun (kill spawnOk : Bool) (newProc : ProcState)
  | opAppend (procId : Option Nat) (data : Str)
  | opFinish (pid : Nat)
  | opDone
  | opKill

def SinkOp.isRun : SinkOp → Bool
  | SinkOp.opRun _ _ _ => true
  | _ => false

/-- One step of the Output Sink under a build operation. -/
def sinkStep (s : SinkState) : SinkOp → SinkState
  | SinkOp.opRun k ok p => OutputWindowController.run s k ok p
  | SinkOp.opAppend pid d => (OutputWindowController.append_data s pid d).1
  | SinkOp.opFinish pid => OutputWindowController.finish s pid
  | SinkOp.opDone => OutputWindowController.done s
  | SinkOp.opKill => OutputWindowController.kill s

/-! ### `AsyncBuildProcess.kill` (lines 178-189) -/

/-- Observable state of an `AsyncBuildProcess` handle for the kill operation:
the `killed` flag, whether the listener is still attached
(`self.listener = None` detaches it), and how many termination requests have
been issued to the OS (`taskkill` / `terminate`). -/
structure HandleState where
  killed : Bool
  listenerAttached : Bool
  terminations : Nat
deriving DecidableEq

namespace AsyncBuildProcess

/-- `AsyncBuildProcess.kill` (lines 178-189): guarded by `if not self.killed`;
inside the guard it marks the handle killed, issues exactly one termination to
the OS and detaches the listener. -/
def kill (s : HandleState) : HandleState :=
  if s.killed then s
  else { killed := true, listenerAttached := false, terminations := s.terminations + 1 }

/-! ### The PATH manipulation of `AsyncBuildProcess.__init__` (lines 124-164)

`os.environ` is modelled as the value of its path-lookup entry plus the list
of all other entries. Between the two `if path:` blocks the source only reads
`os.environ` (`.copy()` at line 131); `proc_env` is a copy, so mutating it
does not touch `os.environ`. `os.path.expandvars(path).encode(...)` is
abstracted as a given expansion function. A failing `subprocess.Popen` raises
out of `__init__` (the caller catches it at `run`, line 322), so the restore
at line 163 is only reached when the spawn succeeded. -/

structure EnvState where
  pathVar : Str
  others : List (String × Str)
deriving DecidableEq

/-- The effect of one `AsyncBuildProcess.__init__` invocation on `os.environ`:
returns whether a handle was produced and the final environment. With a
truthy `path` option, the path-lookup variable is set to the expanded
fragment before the spawn (line 129) and set back to the saved value after it
(line 163); an exception from the spawn skips that restore. -/
def spawnPathEffect (path : Str) (expand : Str → Str) (spawnOk : Bool)
    (env : EnvState) : Bool × EnvState :=
  let oldPath := env.pathVar
  let env1 := if path ≠ [] then { env with pathVar := expand path } else env
  if spawnOk then
    (true, if path ≠ [] then { env1 with pathVar := oldPath } else env1)
  else
    (false, env1)

end AsyncBuildProcess

/-! ### `BuildPhase.init` (`common/build_phase.py`, lines 36-68)

The instance attributes are modelled as the explicit association list that the
successive `self.xxx = ...` assignments build, and Python attribute lookup as
a search in it: reading an attribute that no assignment has created raises
`AttributeError`. `_invalidate` (lines 77-92) sets `_is_valid` to `False` and
shows a UI message (not modelled). -/

/-- A value stored in an instance attribute (only the shapes `BuildPhase.init`
uses). `noneV` is Python's `None`, i.e. `kwargs.get` of an absent key. -/
inductive AttrVal where
  | noneV
  | str (s : String)
  | boolV (b : Bool)
  | strList (l : List String)
deriving DecidableEq

/-- Assignment `self.k = v`: replace or add the binding. -/
def setAttr (attrs : List (String × AttrVal)) (k : String) (v : AttrVal) :
    List (String × AttrVal) :=
  match attrs with
  | [] => [(k, v)]
  | (k', v') :: rest => if k' = k then (k, v) :: rest else (k', v') :: setAttr rest k v

/-- Attribute read `self.k`: `AttributeError` when no assignment created it. -/
def getAttr (attrs : List (String × AttrVal)) (k : String) : Except PyErr AttrVal :=
  match attrs.lookup k with
  | some v => Except.ok v
  | none => Except.error (PyErr.attributeError k)

/-- The configuration mapping handed to `BuildPhase.init` via `**kwargs`
(`kwargs.get` of an absent key is `None`). -/
structure PhaseConfig where
  name : Option String
  path_selector : Option String
  stop_on_error : Option Bool
  configurations : Option (List String)
  type : Option String
  tasks : Option (List String)

def optStrAttr : Option String → AttrVal
  | none => AttrVal.noneV
  | some s => AttrVal.str s

def optBoolAttr : Option Bool → AttrVal
  | none => AttrVal.noneV
  | some b => AttrVal.boolV b

def optListAttr : Option (List String) → AttrVal
  | none => AttrVal.noneV
  | some l => AttrVal.strList l

namespace BuildPhase

/-- `BuildPhase.init` (lines 36-68), statement by statement. Lines 42-48
assign `settings` (not modelled), `name`, `path_selector`, `stop_on_error`,
`configurations`, `_is_valid` and `_type`; no statement assigns `self.tasks`.
Lines 51-62 apply the defaults and validity checks; line 63 then reads
`self.tasks`, which raises `AttributeError` because the attribute was never
created. The remaining statements (lines 63-68) are kept for fidelity but are
unreachable. -/
def init (cfg : PhaseConfig) : Except PyErr (List (String × AttrVal)) := do
  let a : List (String × AttrVal) := []
  let a := setAttr a "name" (optStrAttr cfg.name)
  let a := setAttr a "path_selector" (optStrAttr cfg.path_selector)
  let a := setAttr a "stop_on_error" (optBoolAttr cfg.stop_on_error)
  let a := setAttr a "configurations" (optListAttr cfg.configurations)
  let a := setAttr a "_is_valid" (AttrVal.boolV true)
  let a := setAttr a "_type" (optStrAttr cfg.type)
  let nameV ← getAttr a "name"
  let a := if nameV = AttrVal.noneV then setAttr a "name" (AttrVal.str "") else a
  let stopV ← getAttr a "stop_on_error"
  let a := if stopV = AttrVal.noneV then setAttr a "stop_on_error" (AttrVal.boolV true) else a
  let typeV ← getAttr a "_type"
  let a := if typeV = AttrVal.noneV ∨ typeV = AttrVal.str "" then
      setAttr a "_is_valid" (AttrVal.boolV false) else a
  let confV ← getAttr a "configurations"
  let a := if confV = AttrVal.strList [] then
      setAttr a "_is_valid" (AttrVal.boolV false) else a
  let tasksV ← getAttr a "tasks"
  let a := if tasksV = AttrVal.noneV then
      setAttr a "tasks" (AttrVal.strList ["Build"]) else a
  let tasksV2 ← getAttr a "tasks"
  let a := if tasksV2 = AttrVal.strList [] then
      setAttr a "_is_valid" (AttrVal.boolV false) else a
  pure a

end BuildPhase

/-! ### StyleCop post-run hook (`build_phases/stylecop_phase.py`, 162-216)

The parsed results file is modelled as `Option (List (List String))`: `none`
when `os.path.isfile` is false, otherwise the list of `<File>` elements, each
carrying the list of its `<Violation>` messages (the text of the formatted
warning line is abstracted as the given string). -/

/-- The configured `limit_results` value: either a number or the literal
`False` which disables the limit. The guard in the source is
`self._result_limit != False`, and Python's `0 == False` makes a configured
limit of `0` behave exactly like `False`; `limitActive` reproduces that. -/
inductive ResultLimit where
  | off
  | num (n : Nat)
deriving DecidableEq

def limitActive : ResultLimit → Bool
  | ResultLimit.off => false
  | ResultLimit.num n => decide (n ≠ 0)

/-- Does `count > self._result_limit` hold (only consulted when the limit is
active)? -/
def overLimit (limit : ResultLimit) (count : Nat) : Bool :=
  match limit with
  | ResultLimit.off => false
  | ResultLimit.num n => decide (count > n)

namespace StyleCopPhase

/-- The `for f in files` loop of `print_violations` (lines 198-214): the limit
is only checked between files (and with a strict `count > limit`), then every
violation of the file is reported and counted. Returns the final count and
the reported messages. -/
def reportFiles (limit : ResultLimit) : List (List String) → Nat → Nat × List String
  | [], count => (count, [])
  | f :: fs, count =>
    if limitActive limit && overLimit limit count then
      (count, ["Too many StyleCop results, stopping..."])
    else
      let r := reportFiles limit fs (count + f.length)
      (r.1, f ++ r.2)

/-- `StyleCopPhase.print_violations` (lines 173-216): the leading empty
`process_print("")` that terminates StyleCop's unterminated output, the
no-file and empty-file early exits, then the reporting loop; returns
`count > 0`. -/
def print_violations (limit : ResultLimit) (resultsFile : Option (List (List String))) :
    Bool × List String :=
  match resultsFile with
  | none => (false, ["", "No StyleCop violations found."])
  | some files =>
    if files.length < 1 then (false, ["", "No StyleCop violations found."])
    else
      let r := reportFiles limit files 0
      (decide (r.1 > 0), "" :: r.2)

/-- Number of violations `print_violations` reports. -/
def reportedCount (limit : ResultLimit) (resultsFile : Option (List (List String))) : Nat :=
  match resultsFile with
  | none => 0
  | some files => if files.length < 1 then 0 else (reportFiles limit files 0).1

/-- `StyleCopPhase.task_complete` (lines 162-171): print the violations, then
delete the results file if it exists, and return whether violations were
found. Result: (returned flag, printed messages, whether the file was
deleted). -/
def task_complete (limit : ResultLimit) (resultsFile : Option (List (List String))) :
    Bool × List String × Bool :=
  let r := print_violations limit resultsFile
  (r.1, r.2, resultsFile.isSome)

/-- The largest number of violations carried by a single file. -/
def maxFileSize (files : List (List String)) : Nat :=
  files.foldr (fun f m => max f.length m) 0

end StyleCopPhase

/-! ### `AdvancedBuilderSettings.expand_placeholders` (`common/settings.py`,
lines 343-368)

The body is ten `re.sub` substitution passes (project-path, environment,
home, folder, configuration, package and task tokens) followed by
`value.replace('\\', '/')`. The substitution passes depend on ambient editor
and filesystem state; since the claim holds whatever they produce, they are
modelled as an arbitrary list of text transformations applied in order. The
final `replace` of the single-character pattern is a character map. -/

/-- `value.replace('\\', '/')` (line 366). -/
def replaceBackslashes (value : Str) : Str :=
  value.map fun c => if c = '\\' then '/' else c

namespace AdvancedBuilderSettings

/-- `AdvancedBuilderSettings.expand_placeholders`: the substitution passes
(abstracted, see above) applied in order, then every backslash replaced by a
forward slash. -/
def expand_placeholders (subs : List (Str → Str)) (value : Str) : Str :=
  replaceBackslashes (subs.foldl (fun v f => f v) value)

end AdvancedBuilderSettings

/-! ### Helper lemmas -/

/-- The exact condition under which one `process_line` call turns
`has_errors` on: an error match, or a warning match escalated by
`warnings_as_errors` (reached only when the error pattern did not match). -/
def errWarnFlag (p : ProcState) (line : Str) : Bool :=
  reMatch p.error_re line ||
    (!reMatch p.error_re line && reMatch p.warning_re line && p.warnings_as_errors)

theorem process_line_has_errors (s : SinkState) (p : ProcState) (line : Str) :
    (OutputWindowController.process_line s p line).has_errors =
      (s.has_errors || errWarnFlag p line) := by
  by_cases he : reMatch p.error_re line <;>
    by_cases hw : reMatch p.warning_re line <;>
      by_cases hm : reMatch p.message_re line <;>
        by_cases hh : reMatch p.hide_re line <;>
          cases hwae : p.warnings_as_errors <;>
            cases hahe : p.allow_hide_errors <;>
              cases hq : s.quiet <;>
                simp [OutputWindowController.process_line, errWarnFlag,
                  he, hw, hm, hh, hwae, hahe, hq]

theorem appendLoop_has_errors_mono (lines : List Str) :
    ∀ (s : SinkState) (p : ProcState), s.has_errors = true →
      ((OutputWindowController.appendLoop lines s p).1).has_errors = true := by
  induction lines with
  | nil => intro s p h; simpa [OutputWindowController.appendLoop] using h
  | cons l rest ih =>
    intro s p h
    simp only [OutputWindowController.appendLoop]
    split_ifs with h1 h2 h3
    · exact ih _ _ h
    · exact ih _ _ h
    · cases hts : s.temp_str with
      | none => exact h
      | some t => exact ih _ _ (by simpa using h)
    · cases hts : s.temp_str with
      | none => exact h
      | some t =>
        apply ih
        simp only [process_line_has_errors, h]
        simp

theorem append_data_has_errors_mono (s : SinkState) (pid : Option Nat) (d : Str)
    (h : s.has_errors = true) :
    ((OutputWindowController.append_data s pid d).1).has_errors = true := by
  cases pid with
  | none => simpa [OutputWindowController.append_data] using h
  | some n =>
    cases hp : s.proc with
    | none => simpa [OutputWindowController.append_data, hp] using h
    | some p =>
      by_cases hid : p.id ≠ n
      · simpa [OutputWindowController.append_data, hp, hid] using h
      · simp only [OutputWindowController.append_data, hp, if_neg hid]
        simpa using appendLoop_has_errors_mono _ s _ h

theorem write_has_errors (s : SinkState) (m : Str) :
    (OutputWindowController.write s m).has_errors = s.has_errors := by
  simp [OutputWindowController.write, OutputWindowController.append_data]

theorem finish_has_errors_mono (s : SinkState) (pid : Nat) (h : s.has_errors = true) :
    (OutputWindowController.finish s pid).has_errors = true := by
  cases hp : s.proc with
  | none => simpa [OutputWindowController.finish, hp] using h
  | some p =>
    by_cases hid : p.id ≠ pid
    · simpa [OutputWindowController.finish, hp, hid] using h
    · rcases hcb : p.completion_callback with _ | r
      · by_cases hex : p.exit_code ≠ none ∧ p.exit_code ≠ some 0 <;>
          simp [OutputWindowController.finish, hp, hid, hcb, hex, h]
      · cases r <;>
          by_cases hex : p.exit_code ≠ none ∧ p.exit_code ≠ some 0 <;>
            simp [OutputWindowController.finish, hp, hid, hcb, hex, h]

theorem done_has_errors_mono (s : SinkState) (h : s.has_errors = true) :
    (OutputWindowController.done s).has_errors = true := by
  unfold OutputWindowController.done
  split_ifs <;> rw [write_has_errors]

theorem finish_log_proc (s : SinkState) (pid : Nat) :
    (OutputWindowController.finish s pid).log = s.log ∧
      (OutputWindowController.finish s pid).proc = s.proc := by
  cases hp : s.proc with
  | none => simp [OutputWindowController.finish, hp]
  | some p =>
    by_cases hid : p.id ≠ pid
    · simp [OutputWindowController.finish, hp, hid]
    · rcases hcb : p.completion_callback with _ | r
      · by_cases hex : p.exit_code ≠ none ∧ p.exit_code ≠ some 0 <;>
          simp [OutputWindowController.finish, hp, hid, hcb, hex]
      · cases r <;>
          by_cases hex : p.exit_code ≠ none ∧ p.exit_code ≠ some 0 <;>
            simp [OutputWindowController.finish, hp, hid, hcb, hex]

/-! ### Concrete fixtures for counterexamples and witnesses -/

/-- A current process with no patterns configured (identity token 1). -/
def procNoRe : ProcState :=
  { id := 1, skip_lines := 0, error_re := none, warning_re := none, message_re := none,
    hide_re := none, line_re := none, warnings_as_errors := false,
    allow_hide_errors := false, completion_callback := none, exit_code := none,
    buffer := [] }

/-- A freshly spawned process handle (identity token 2). -/
def procFresh : ProcState :=
  { procNoRe with id := 2 }

/-- A controller state mid-build with `procNoRe` current. -/
def sWithProc : SinkState :=
  { proc := some procNoRe, has_errors := false, running := true, quiet := false,
    temp_str := none, log := [] }

/-- A controller state whose error flag is already set (as after a failing
phase), with no process running. -/
def sErrFlag : SinkState :=
  { proc := none, has_errors := true, running := false, quiet := false,
    temp_str := none, log := [] }

/-! ### Claims -/

/-- Claim C1, counterexample. The claim says that once `has_errors` is true it
stays true for the rest of the build and that no build operation — including
starting the next phase's task — resets it. But
`OutputWindowController.run` executes `self.has_errors = False` as its first
statement (line 274), so starting the next phase's task does reset the flag:
from a state with the flag set (as left by a failed phase whose
`stop_on_error` is false), one `opRun` step ends with `has_errors = false`. -/
theorem c1_run_resets_has_errors_counterexample :
    sErrFlag.has_errors = true ∧
      (sinkStep sErrFlag (SinkOp.opRun false true procFresh)).has_errors = false :=
  ⟨rfl, rfl⟩

/-- Claim C1, amended: within one phase's task, `has_errors` is monotonic —
every Output Sink operation other than `run` (chunk delivery and line
classification, completion handling, the final summary, kill) preserves a set
flag; only `run`, which starts a phase's task, resets it to false. -/
theorem c1_has_errors_monotone_except_run (s : SinkState) (op : SinkOp)
    (hop : op.isRun = false) (h : s.has_errors = true) :
    (sinkStep s op).has_errors = true := by
  cases op with
  | opRun k ok p => simp [SinkOp.isRun] at hop
  | opAppend pid d => exact append_data_has_errors_mono s pid d h
  | opFinish pid => exact finish_has_errors_mono s pid h
  | opDone => exact done_has_errors_mono s h
  | opKill => simpa [OutputWindowController.kill, write_has_errors] using h

/-- Witness for `c1_has_errors_monotone_except_run` at a concrete state and
operation. -/
theorem c1_has_errors_monotone_except_run_witness :
    (sinkStep sErrFlag (SinkOp.opFinish 0)).has_errors = true :=
  c1_has_errors_monotone_except_run sErrFlag (SinkOp.opFinish 0) rfl rfl

/-- The chunk sequence refuting claim C2: the first chunk ends in a carriage
return, the next one begins with a line feed. -/
def c2chunks : List Str := [['a', '\r'], ['\n', 'b']]

/-- Claim C2, counterexample. The claim asserts that the emitted lines plus
the final fragment reconstruct the input with `\r\n`/`\r` normalized to `\n`,
and that the fragment is flushed when the streams close. `append_data`
normalizes each chunk separately (line 428), so a `\r\n` pair split across
two chunks becomes two newlines: for the chunks `"a\r"`, `"\nb"` the
reconstruction is `"a\n\nb"` while the normalized concatenation is `"a\nb"`.
(The flush clause fails too: `finish` — the only completion path — never
touches the buffer, and `finish_data` is dead code; see the amended
theorem.) -/
theorem c2_line_buffer_counterexample :
    ((emitJoin (feedAll c2chunks []).1 (feedAll c2chunks []).2 ==
        normalizeNewlines c2chunks.flatten) = false) ∧
      (feedAll c2chunks []).2 = ['b'] :=
  ⟨rfl, rfl⟩

/-- Claim C2, amended: concatenating the emitted lines (terminators
reinserted) plus the held fragment equals the concatenation of the
per-chunk-normalized inputs (each chunk's `\r\n`/`\r` rewritten to `\n`
independently, not the normalization of the concatenated input); and on
process completion the held fragment is not flushed — `finish` leaves both
the log and the per-process buffer untouched (`finish_data`, which would
flush the pending logical line, is never invoked in the source). -/
theorem c2_line_buffer_conservation_amended :
    (∀ chunks : List Str,
        emitJoin (feedAll chunks []).1 (feedAll chunks []).2 =
          (chunks.map normalizeNewlines).flatten) ∧
      ∀ (s : SinkState) (pid : Nat),
        (OutputWindowController.finish s pid).log = s.log ∧
          (OutputWindowController.finish s pid).proc = s.proc := by
  constructor
  · intro chunks
    simpa using emitJoin_feedAll chunks []
  · intro s pid
    exact finish_log_proc s pid

/-- Is the handle identity `pid` stale, i.e. not the Output Sink's current
process (`proc != self.proc` with `self.proc` possibly `None`)? -/
def staleFor (s : SinkState) (pid : Nat) : Bool :=
  match s.proc with
  | some p => p.id != pid
  | none => true

/-- Claim C3, confirmed: a chunk attributed to a stale handle is dropped by
the guard at lines 416-418 before any decode, buffer or log activity — the
state is returned bit-for-bit unchanged and no exception occurs — and a stale
completion notification is likewise ignored by the guard at lines 553-554,
leaving `has_errors` and `_running` (the whole state) unchanged. -/
theorem c3_stale_chunks_dropped (s : SinkState) (pid : Nat) (data : Str)
    (h : staleFor s pid = true) :
    OutputWindowController.append_data s (some pid) data = (s, none) ∧
      OutputWindowController.finish s pid = s := by
  cases hp : s.proc with
  | none =>
    exact ⟨by simp [OutputWindowController.append_data, hp],
      by simp [OutputWindowController.finish, hp]⟩
  | some p =>
    have hid : p.id ≠ pid := by simpa [staleFor, hp] using h
    exact ⟨by simp [OutputWindowController.append_data, hp, hid],
      by simp [OutputWindowController.finish, hp, hid]⟩

/-- Witness for `c3_stale_chunks_dropped`: a controller whose current process
has identity 1 drops data and completion of the stale handle 5. -/
theorem c3_stale_chunks_dropped_witness :
    OutputWindowController.append_data sWithProc (some 5) ['x'] = (sWithProc, none) ∧
      OutputWindowController.finish sWithProc 5 = sWithProc :=
  c3_stale_chunks_dropped sWithProc 5 ['x'] rfl

/-- The current process of the C4 counterexample: `skip_lines = 1`. -/
def procSkip1 : ProcState :=
  { procNoRe with skip_lines := 1 }

/-- Controller state for the C4 counterexample. -/
def sSkip : SinkState :=
  { proc := some procSkip1, has_errors := false, running := true, quiet := false,
    temp_str := none, log := [] }

/-- Claim C4, counterexample. The claim says the skip budget is consumed by
exactly the first N non-empty physical lines. But the budget check (line 455)
precedes the empty-line check (line 460), so empty physical lines consume the
budget too: with `skip_lines = 1`, the chunk `"\n\n"` — two empty physical
lines and no non-empty line at all — drains the budget to 0 (while, as the
claim does predict, rendering nothing and raising nothing). -/
theorem c4_skip_budget_counterexample :
    ((OutputWindowController.append_data sSkip (some 1) ['\n', '\n']).1.proc.map
        fun p => p.skip_lines) = some 0 ∧
      (OutputWindowController.append_data sSkip (some 1) ['\n', '\n']).2 = none ∧
      (OutputWindowController.append_data sSkip (some 1) ['\n', '\n']).1.log = sSkip.log :=
  ⟨rfl, rfl, rfl⟩

/-- Claim C4, amended: with a remaining budget of N, the first
`min N (number of lines)` physical lines of a delivery — empty or not,
whatever their content — are consumed by the budget alone: processing is
exactly processing of the remaining lines with the budget reduced by that
amount, so the skipped lines are never matched against any pattern, never
rendered, and have no effect beyond the decrement. -/
theorem c4_skip_budget_amended (lines : List Str) :
    ∀ (s : SinkState) (p : ProcState),
      OutputWindowController.appendLoop lines s p =
        OutputWindowController.appendLoop (lines.drop (min p.skip_lines lines.length)) s
          { p with skip_lines := p.skip_lines - min p.skip_lines lines.length } := by
  induction lines with
  | nil =>
    intro s p
    simp
  | cons l rest ih =>
    intro s p
    obtain ⟨pid, psk, re1, re2, re3, re4, re5, w1, w2, cb, ec, buf⟩ := p
    cases psk with
    | zero => simp
    | succ k =>
      have h1 : OutputWindowController.appendLoop (l :: rest) s
            ⟨pid, k + 1, re1, re2, re3, re4, re5, w1, w2, cb, ec, buf⟩ =
          OutputWindowController.appendLoop rest s
            ⟨pid, k, re1, re2, re3, re4, re5, w1, w2, cb, ec, buf⟩ := by
        simp [OutputWindowController.appendLoop]
      rw [h1, ih]
      simp [Nat.succ_min_succ, Nat.succ_sub_succ]

/-- Claim C5, confirmed: `AsyncBuildProcess.kill` is idempotent — the second
call finds `self.killed` already set and does nothing, so the observable state
(killed flag, attached listener, number of termination requests issued) after
two calls equals the state after one. -/
theorem c5_kill_idempotent (s : HandleState) :
    AsyncBuildProcess.kill (AsyncBuildProcess.kill s) = AsyncBuildProcess.kill s := by
  unfold AsyncBuildProcess.kill
  by_cases h : s.killed <;> simp [h]

/-- Environment fixture for the C6 counterexample: path-lookup variable `"p"`
plus an unrelated entry. -/
def envFix : AsyncBuildProcess.EnvState :=
  { pathVar := ['p'], others := [("HOME", ['h'])] }

/-- Claim C6, counterexample. The claim says the path-lookup variable is
restored after the spawn attempt both on success and on failure. The restore
(line 163) sits after the `subprocess.Popen` call with no `try`/`finally`, and
a failing spawn raises out of `__init__` (caught only by the caller at line
322), skipping it: spawning with fragment `"x"` (expansion the identity) from
`PATH = "p"` fails and leaves `PATH = "x"`. -/
theorem c6_path_restore_counterexample :
    (AsyncBuildProcess.spawnPathEffect ['x'] (fun s => s) false envFix).2.pathVar = ['x'] ∧
      envFix.pathVar = ['p'] :=
  ⟨rfl, rfl⟩

/-- Claim C6, amended: with a non-empty search-path fragment the path-lookup
variable is modified only for the duration of a successful spawn — on success
the whole environment is restored exactly — while a failed spawn leaves the
variable holding the expanded fragment (the restore is skipped by the
exception); entries other than the path-lookup variable are never modified in
either case. -/
theorem c6_path_restore_amended (path : Str) (expand : Str → Str)
    (env : AsyncBuildProcess.EnvState) :
    (AsyncBuildProcess.spawnPathEffect path expand true env).2 = env ∧
      (AsyncBuildProcess.spawnPathEffect path expand false env).2.pathVar =
        (if path ≠ [] then expand path else env.pathVar) ∧
      ∀ ok : Bool,
        (AsyncBuildProcess.spawnPathEffect path expand ok env).2.others = env.others := by
  refine ⟨?_, ?_, ?_⟩
  · by_cases h : path = [] <;> simp [AsyncBuildProcess.spawnPathEffect, h]
  · by_cases h : path = [] <;> simp [AsyncBuildProcess.spawnPathEffect, h]
  · intro ok
    cases ok <;> by_cases h : path = [] <;> simp [AsyncBuildProcess.spawnPathEffect, h]

/-- The process of the C7 counterexample: error and hide patterns that match
everything, with `allow_hide_errors` enabled. -/
def procHideErr : ProcState :=
  { procNoRe with
    error_re := some [(fun _ => true)]
    hide_re := some [(fun _ => true)]
    allow_hide_errors := true }

/-- Claim C7, counterexample. The claim says that with `allow_hide_errors`
enabled a hidden error line does not set `has_errors`. But
`self.has_errors = True` (line 495) precedes the
`not proc.allow_hide_errors or not hide` gate (line 496), which only guards
the rendering: a line matching both the error and the hide pattern of a
process with `allow_hide_errors` enabled still sets the flag (while nothing is
rendered, confirming the gate's actual role). -/
theorem c7_hidden_error_sets_flag_counterexample :
    reMatch procHideErr.error_re ['b'] = true ∧
      reMatch procHideErr.hide_re ['b'] = true ∧
      procHideErr.allow_hide_errors = true ∧
      sWithProc.has_errors = false ∧
      (OutputWindowController.process_line sWithProc procHideErr ['b']).has_errors = true ∧
      (OutputWindowController.process_line sWithProc procHideErr ['b']).log = sWithProc.log :=
  ⟨rfl, rfl, rfl, rfl, rfl, rfl⟩

/-- Claim C7, amended: classification sets `has_errors` exactly when the line
matches the error pattern, or matches the warning pattern (without matching
the error pattern) while `warnings_as_errors` is set — unconditionally, even
when the line is hidden and even when `allow_hide_errors` is enabled: those
two options only suppress the rendering. In particular a hidden line that
matches no error/escalated-warning pattern never affects the flag. -/
theorem c7_has_errors_classification_amended (s : SinkState) (p : ProcState) (line : Str) :
    (OutputWindowController.process_line s p line).has_errors =
      (s.has_errors || errWarnFlag p line) :=
  process_line_has_errors s p line

/-- Claim C8, counterexample. The claim says at most L violations are
reported. The limit is checked only between `<File>` elements (line 199,
`count > self._result_limit` before each file), so a single file's violations
are reported in full: with limit 1 and one file carrying three violations,
three violations are reported (and the hook returns true). -/
theorem c8_limit_counterexample :
    (StyleCopPhase.task_complete (ResultLimit.num 1) (some [["a", "b", "c"]])).1 = true ∧
      StyleCopPhase.reportedCount (ResultLimit.num 1) (some [["a", "b", "c"]]) = 3 :=
  ⟨rfl, rfl⟩

theorem reportFiles_le (n : Nat) (files : List (List String)) :
    ∀ c : Nat, (StyleCopPhase.reportFiles (ResultLimit.num (n + 1)) files c).1 ≤
      max c ((n + 1) + StyleCopPhase.maxFileSize files) := by
  induction files with
  | nil =>
    intro c
    exact le_max_left c _
  | cons f fs ih =>
    intro c
    by_cases hc : c > n + 1
    · have hguard : (limitActive (ResultLimit.num (n + 1)) &&
          overLimit (ResultLimit.num (n + 1)) c) = true := by
        simp [limitActive, overLimit, hc]
      simp only [StyleCopPhase.reportFiles, hguard, if_pos]
      exact le_max_left c _
    · have hguard : (limitActive (ResultLimit.num (n + 1)) &&
          overLimit (ResultLimit.num (n + 1)) c) = false := by
        simp [limitActive, overLimit, hc]
      simp only [StyleCopPhase.reportFiles, hguard, Bool.false_eq_true, if_false]
      have h2 := ih (c + f.length)
      have hms : StyleCopPhase.maxFileSize (f :: fs) =
          max f.length (StyleCopPhase.maxFileSize fs) := rfl
      have hcle : c ≤ n + 1 := Nat.le_of_not_lt hc
      refine le_trans h2 (le_trans (max_le ?_ ?_) (le_max_right c _))
      · rw [hms]
        have : c + f.length ≤ (n + 1) + f.length := Nat.add_le_add_right hcle _
        exact le_trans this (Nat.add_le_add_left (le_max_left _ _) _)
      · rw [hms]
        exact Nat.add_le_add_left (le_max_right _ _) _

/-- Claim C8, amended: the post-run hook returns true exactly when at least
one violation was reported, always deletes the results file afterwards when it
exists, and enforces the limit only at file granularity — before each
`<File>` element, not per violation — so with a positive limit L the report
can exceed L by up to the size of a single file: the count is bounded by
L plus the largest per-file violation count, not by L. -/
theorem c8_stylecop_amended (limit : ResultLimit) (r : Option (List (List String)))
    (n : Nat) (files : List (List String)) :
    ((StyleCopPhase.task_complete limit r).1 =
        decide (StyleCopPhase.reportedCount limit r > 0)) ∧
      ((StyleCopPhase.task_complete limit r).2.2 = r.isSome) ∧
      ((StyleCopPhase.reportFiles (ResultLimit.num (n + 1)) files 0).1 ≤
        (n + 1) + StyleCopPhase.maxFileSize files) := by
  refine ⟨?_, ?_, ?_⟩
  · cases r with
    | none => simp [StyleCopPhase.task_complete, StyleCopPhase.print_violations,
        StyleCopPhase.reportedCount]
    | some files' =>
      by_cases hf : files'.length < 1 <;>
        simp [StyleCopPhase.task_complete, StyleCopPhase.print_violations,
          StyleCopPhase.reportedCount, hf]
  · cases r <;> simp [StyleCopPhase.task_complete]
  · simpa using reportFiles_le n files 0

/-- The phase configuration of claim C9: a well-formed mapping that omits
`tasks` and `stop_on_error`. -/
def cfgNoTasks : PhaseConfig :=
  { name := some "pack", path_selector := none, stop_on_error := none,
    configurations := none, type := some "command", tasks := none }

/-- Claim C9: the claim describes the intended defaulting (`tasks` →
`["Build"]`, `stop_on_error` → true, both of which the source's lines 54-56
and 63-68 clearly attempt), but `BuildPhase.init` never executes an
assignment `self.tasks = ...` before line 63 reads `self.tasks`, so
construction of every phase raises `AttributeError` instead of completing
with the defaults — the defaulting block for `tasks` is unreachable dead
code. -/
theorem c9_build_phase_init_attribute_error :
    BuildPhase.init cfgNoTasks = Except.error (PyErr.attributeError "tasks") := by
  rfl

theorem replaceBackslashes_all (l : Str) :
    (replaceBackslashes l).all (fun c => c != '\\') = true := by
  induction l with
  | nil => rfl
  | cons c rest ih =>
    simp only [replaceBackslashes, List.map_cons, List.all_cons]
    rw [Bool.and_eq_true]
    refine ⟨?_, ih⟩
    by_cases h : c = '\\'
    · subst h
      decide
    · rw [if_neg h]
      exact bne_iff_ne.mpr h

/-- Claim C10, confirmed: whatever the substitution passes produce, the final
`value.replace('\\', '/')` (line 366) rewrites every remaining backslash, so
the string returned by `expand_placeholders` contains no backslash character
for any input. -/
theorem c10_no_backslash_after_expand (subs : List (Str → Str)) (value : Str) :
    (AdvancedBuilderSettings.expand_placeholders subs value).all
      (fun c => c != '\\') = true :=
  replaceBackslashes_all _
